import Mathlib

/-!
Shallow embedding of the domain-name claim validator of
`src/libraries/dns/dns_transaction_validator.cpp` (namespace `bts::dns`).

Machine integers (`asset` amounts) are modelled as `Int`; names as `String`;
public-key identities as `Nat`.  `FC_ASSERT` failures abort the enclosing
transaction, so every validation routine is embedded as an `Except String`
computation returning the updated evaluation state on success.

The helper predicates of `dns_util.hpp` and the `dns_db` ledger interface are
not under `src/`; they are kept as abstract parameters in `dns_env`, except
where a claim fixes their content, in which case they are modelled from the
spec (see the `Modelled from the spec:` doc comments).
-/

/-- Value of `claim_domain_output::not_in_auction` (first enumerator of the
domain-state enum). -/
def not_in_auction : Nat := 0

/-- Value of `claim_domain_output::possibly_in_auction` (second enumerator of
the domain-state enum). -/
def possibly_in_auction : Nat := 1

/-- The `claim_domain_output` payload: a name claim carried by a transaction
output (`name`, opaque `value`, auction-state tag, owner key). The associated
amount travels separately on the enclosing `trx_output`. -/
structure claim_domain_output where
  name : String
  value : List Nat
  state : Nat
  owner : Nat
deriving DecidableEq

/-- The claim function of a generic transaction output: a plain
signature claim (`claim_by_signature`, carrying its owner key), a domain claim
(`claim_domain`, carrying a `claim_domain_output`), or any other claim kind. -/
inductive claim_func_kind where
  | by_signature (owner : Nat)
  | domain (d : claim_domain_output)
  | other_claim
deriving DecidableEq

/-- A transaction output (`trx_output`): its claim function and its amount. -/
structure trx_output where
  claim : claim_func_kind
  amount : Int
deriving DecidableEq

/-- `is_dns_output`: the dispatch test used by `validate_input` /
`validate_output` — true exactly for domain-claim outputs. -/
def is_dns_output (o : trx_output) : Bool :=
  match o.claim with
  | .domain _ => true
  | _ => false

/-- The per-transaction evaluation state `dns_tx_evaluation_state`: the two
seen-flags, the recorded claim-input snapshot and its amount, plus the fields
inherited from the generic transaction state that this validator touches
(required-fee accumulator, the transaction's output list, the signature set). -/
structure dns_tx_evaluation_state where
  seen_domain_input : Bool
  seen_domain_output : Bool
  input : claim_domain_output
  input_amount : Int
  required_fees : Int
  trx_outputs : List trx_output
  sigs : List Nat
deriving DecidableEq

/-- `transaction_evaluation_state::has_signature`: membership of a key in the
transaction's signature set. -/
def has_signature (st : dns_tx_evaluation_state) (k : Nat) : Bool :=
  st.sigs.contains k

/-- The per-block evaluation state `dns_block_evaluation_state`: the name pool
of names claimed by outputs already validated in the current block. -/
structure dns_block_evaluation_state where
  name_pool : List String
deriving DecidableEq

/-- A signed transaction, reduced to what the validator reads: the outputs
being spent by its inputs (`meta_trx_input::output`), its own outputs, and the
set of keys that signed it. -/
structure signed_transaction where
  inputs : List trx_output
  outputs : List trx_output
  sigs : List Nat
deriving DecidableEq

/-- Modelled from the spec: `is_valid_state` of `dns_util.hpp` (not under
`src/`) — the output's state field must be one of the two recognized auction
states. -/
def is_valid_state (s : Nat) : Bool :=
  s == not_in_auction || s == possibly_in_auction

/-- Modelled from the spec: the minimum-amount rule enforced by
`is_valid_amount` of `dns_util.hpp` (not under `src/`) — the amount must be
strictly positive and, for new claims (no claim input on the transaction), at
least the minimum auction floor `floor_amt`. -/
def min_amount_rule (floor_amt : Int) (is_new_claim : Bool) (a : Int) : Bool :=
  decide (0 < a) && (!is_new_claim || decide (floor_amt ≤ a))

/-- The external collaborators of the validator: the `dns_util.hpp` helper
predicates and the `dns_db` ledger interface (none of which are under `src/`),
plus the generic (non-name-claim) validation of the base
`transaction_validator`.  `name_is_available` returns
`(available, new_or_expired, prev_tx_ref)`, matching the C++ return value and
its two out-parameters; `is_valid_bid_price` returns `some amount_back` when
the bid price is valid and `none` otherwise, matching the C++ bool return with
the `amount_back` out-parameter. -/
structure dns_env where
  is_valid_name : String → Bool
  is_valid_value : List Nat → Bool
  is_valid_amount : Int → Bool
  has_dns_record : String → Bool
  name_is_available : String → List String → Bool × Bool × Nat
  auction_is_closed : Nat → Bool
  domain_is_expired : Nat → Bool
  is_valid_bid_price : Int → Int → Option Int
  generic_validate_input :
    trx_output → dns_tx_evaluation_state → dns_block_evaluation_state →
      Except String dns_tx_evaluation_state
  generic_validate_output :
    trx_output → dns_tx_evaluation_state → dns_block_evaluation_state →
      Except String (dns_tx_evaluation_state × dns_block_evaluation_state)

/-- `dns_transaction_validator::validate_domain_input`: reject on a second
claim input or on a name absent from the ledger; otherwise record the input
snapshot and its amount and set `seen_domain_input`.  The block state is a
parameter (as in the source) but is never read. -/
def validate_domain_input (env : dns_env) (input : claim_domain_output)
    (amount : Int) (st : dns_tx_evaluation_state)
    (_bst : dns_block_evaluation_state) :
    Except String dns_tx_evaluation_state :=
  if st.seen_domain_input then
    .error "More than one domain claim input in tx"
  else if !env.has_dns_record input.name then
    .error "Input references invalid name"
  else
    .ok { st with input := input, input_amount := amount,
                  seen_domain_input := true }

/-- The refund scan of `validate_domain_output`: the loop over
`state.trx.outputs` looking for a `claim_by_signature` output paying at least
`amount_back` to the prior owner. -/
def pays_prev_owner (outs : List trx_output) (amount_back : Int)
    (owner : Nat) : Bool :=
  outs.any fun o =>
    match o.claim with
    | .by_signature k => decide (amount_back ≤ o.amount) && (k == owner)
    | _ => false

/-- `dns_transaction_validator::validate_domain_output`: the claim-output
state machine, embedded check for check in source order. -/
def validate_domain_output (env : dns_env) (output : claim_domain_output)
    (amount : Int) (st0 : dns_tx_evaluation_state)
    (bst : dns_block_evaluation_state) :
    Except String dns_tx_evaluation_state :=
  if st0.seen_domain_output then
    .error "More than one domain claim output in tx"
  else
    let st := { st0 with seen_domain_output := true }
    if !env.is_valid_name output.name then .error "Invalid name"
    else if !env.is_valid_value output.value then .error "Invalid value"
    else if !is_valid_state output.state then .error "Invalid state"
    else if !env.is_valid_amount amount then .error "Invalid amount"
    else
      let cls := env.name_is_available output.name bst.name_pool
      let available := cls.1
      let new_or_expired := cls.2.1
      let prev_tx_ref := cls.2.2
      if !st.seen_domain_input then
        if new_or_expired && available then .ok st
        else .error "Name already exists (and is younger than 1 block-year)"
      else if new_or_expired then .error "Name new or expired"
      else if !(output.name == st.input.name) then
        .error "Bid tx refers to different input and output names"
      else if !env.auction_is_closed prev_tx_ref then
        if !available then .error "Name not available"
        else if !(st.input.state == possibly_in_auction) then
          .error "Input not for auction"
        else
          match env.is_valid_bid_price st.input_amount amount with
          | none => .error "Invalid bid amount"
          | some amount_back =>
            let st2 :=
              { st with required_fees :=
                  st.required_fees + (amount - amount_back) }
            if pays_prev_owner st.trx_outputs amount_back st.input.owner then
              .ok st2
            else .error "Bid did not pay enough to previous owner"
      else if env.domain_is_expired prev_tx_ref then .error "Domain is expired"
      else if output.state == not_in_auction && !(amount == st.input_amount)
      then .error "Output amount should not change when updating record"
      else if has_signature st output.owner then .ok st
      else .error "Domain tx missing required signature"

/-- `dns_transaction_validator::validate_input`: dispatch a spent output to the
domain rule when it is a dns output, otherwise fall through to generic input
validation. -/
def validate_input (env : dns_env) (inp : trx_output)
    (st : dns_tx_evaluation_state) (bst : dns_block_evaluation_state) :
    Except String dns_tx_evaluation_state :=
  match inp.claim with
  | .domain d => validate_domain_input env d inp.amount st bst
  | _ => env.generic_validate_input inp st bst

/-- `dns_transaction_validator::validate_output`: dispatch to the domain rule
when the output is a dns output and, on success, append the name to the
block's name pool; otherwise fall through to generic output validation. -/
def validate_output (env : dns_env) (o : trx_output)
    (st : dns_tx_evaluation_state) (bst : dns_block_evaluation_state) :
    Except String (dns_tx_evaluation_state × dns_block_evaluation_state) :=
  match o.claim with
  | .domain d =>
    match validate_domain_output env d o.amount st bst with
    | .error e => .error e
    | .ok st2 =>
      .ok (st2, { bst with name_pool := bst.name_pool ++ [d.name] })
  | _ => env.generic_validate_output o st bst

/-- The fresh per-transaction state built by
`dns_transaction_validator::evaluate` (`dns_tx_evaluation_state state(tx)`):
both seen-flags clear, no fees accumulated, the transaction's outputs and
signature set attached. -/
def init_tx_state (tx : signed_transaction) : dns_tx_evaluation_state :=
  { seen_domain_input := false
    seen_domain_output := false
    input := { name := "", value := [], state := 0, owner := 0 }
    input_amount := 0
    required_fees := 0
    trx_outputs := tx.outputs
    sigs := tx.sigs }

/-- Modelled from the spec: `transaction_validator::on_evaluate` (the enclosing
block-evaluation framework, not under `src/`) validates every input and then
every output of the transaction in order against the per-transaction state
created by `evaluate`; a rejection at any rule aborts the whole transaction. -/
def evaluate_trx (env : dns_env) (tx : signed_transaction)
    (bst : dns_block_evaluation_state) :
    Except String (dns_tx_evaluation_state × dns_block_evaluation_state) :=
  match tx.inputs.foldlM (fun s i => validate_input env i s bst)
      (init_tx_state tx) with
  | .error e => .error e
  | .ok st1 =>
    tx.outputs.foldlM (fun p o => validate_output env o p.1 p.2) (st1, bst)

/-- Modelled from the spec: the per-block driver of the enclosing framework
(not under `src/`) validates the block's transactions in order and commits a
transaction's block-state mutations only when the whole transaction succeeds;
a rejected transaction leaves the per-block state unchanged for the
transactions after it (spec §7). -/
def apply_block (env : dns_env) (txs : List signed_transaction)
    (bst : dns_block_evaluation_state) : dns_block_evaluation_state :=
  txs.foldl
    (fun b tx =>
      match evaluate_trx env tx b with
      | .ok p => p.2
      | .error _ => b)
    bst

/-- True exactly when a validation computation rejected. -/
def isRejected {α : Type} (r : Except String α) : Bool :=
  match r with
  | .error _ => true
  | .ok _ => false

/-- A sample environment used by the concrete witnesses: the ledger holds a
single record for `"alice"` (reference `7`, auction open, not expired); names
are valid when nonempty, amounts when positive; the bid-pricing function
accepts any strict raise and refunds exactly the previous locked amount. -/
def env0 : dns_env where
  is_valid_name := fun n => !(n == "")
  is_valid_value := fun _ => true
  is_valid_amount := fun a => decide (0 < a)
  has_dns_record := fun n => n == "alice"
  name_is_available := fun n pool => (!(pool.contains n), !(n == "alice"), 7)
  auction_is_closed := fun _ => false
  domain_is_expired := fun _ => false
  is_valid_bid_price := fun prev a => if prev < a then some prev else none
  generic_validate_input := fun _ s _ => .ok s
  generic_validate_output := fun _ s b => .ok (s, b)

/-- `env0` with the auction on every record closed, for closed-auction
witnesses. -/
def env_closed : dns_env :=
  { env0 with auction_is_closed := fun _ => true }

/-- The committed record snapshot for `"alice"`, owned by key `1`. -/
def d_alice : claim_domain_output :=
  { name := "alice", value := [0], state := possibly_in_auction, owner := 1 }

/-- A fresh claim output for the unseen name `"bob"` by key `2`. -/
def d_new : claim_domain_output :=
  { name := "bob", value := [0], state := possibly_in_auction, owner := 2 }

/-- A bid output on `"alice"` by key `2`. -/
def d_bid : claim_domain_output :=
  { name := "alice", value := [0], state := possibly_in_auction, owner := 2 }

/-- An update output on `"alice"` by its owner, key `1`. -/
def d_upd : claim_domain_output :=
  { name := "alice", value := [0], state := not_in_auction, owner := 1 }

/-- An empty name pool. -/
def bst_empty : dns_block_evaluation_state := { name_pool := [] }

/-- A name pool already holding `"alice"`. -/
def bst_alice : dns_block_evaluation_state := { name_pool := ["alice"] }

/-- A fresh per-transaction state with no claim input recorded. -/
def st_fresh : dns_tx_evaluation_state :=
  { seen_domain_input := false
    seen_domain_output := false
    input := d_alice
    input_amount := 0
    required_fees := 0
    trx_outputs := []
    sigs := [] }

/-- A per-transaction state after a claim input referencing `"alice"` (locked
amount `100`) was validated; the transaction carries a signature output of
`100` to the prior owner and the prior owner's signature set. -/
def st_bid : dns_tx_evaluation_state :=
  { st_fresh with
    seen_domain_input := true
    input_amount := 100
    trx_outputs := [{ claim := .by_signature 1, amount := 100 }]
    sigs := [1] }

/-- A per-transaction state for the closed-auction sale witness: the buyer's
key `2` signed the transaction. -/
def st_sale : dns_tx_evaluation_state := { st_bid with sigs := [2] }

/-- The per-transaction state after the sample bid of `150` on `"alice"`
succeeds: the output flag is set and `50 = 150 − 100` was added to the
required fees. -/
def st_bid_after : dns_tx_evaluation_state :=
  { st_bid with seen_domain_output := true, required_fees := 50 }

/-- A transaction whose claim input references the unknown name `"bob"`. -/
def tx_bad : signed_transaction :=
  { inputs := [{ claim := .domain d_new, amount := 5 }]
    outputs := []
    sigs := [] }

/-- C1: with no claim input seen, a structurally valid claim output is accepted
iff the oracle classifies its name as new-or-expired and available; on
acceptance the name is appended to the block's name pool and the required-fee
accumulator is unchanged; otherwise the transaction is rejected. -/
theorem claim_C1 (env : dns_env) (d : claim_domain_output) (A : Int)
    (st : dns_tx_evaluation_state) (bst : dns_block_evaluation_state)
    (hin : st.seen_domain_input = false)
    (hout : st.seen_domain_output = false)
    (hname : env.is_valid_name d.name = true)
    (hvalue : env.is_valid_value d.value = true)
    (hstate : is_valid_state d.state = true)
    (hamount : env.is_valid_amount A = true) :
    (validate_output env { claim := .domain d, amount := A } st bst =
        .ok ({ st with seen_domain_output := true },
             { bst with name_pool := bst.name_pool ++ [d.name] })
      ↔ ((env.name_is_available d.name bst.name_pool).2.1 = true ∧
         (env.name_is_available d.name bst.name_pool).1 = true))
    ∧ (((env.name_is_available d.name bst.name_pool).2.1 = false ∨
        (env.name_is_available d.name bst.name_pool).1 = false) →
       validate_output env { claim := .domain d, amount := A } st bst =
         .error "Name already exists (and is younger than 1 block-year)") := by
  unfold validate_output validate_domain_output
  cases hnoe : (env.name_is_available d.name bst.name_pool).2.1 <;>
    cases hav : (env.name_is_available d.name bst.name_pool).1 <;>
    simp [hin, hout, hname, hvalue, hstate, hamount, hnoe, hav]

/-- C1 witness: a fresh claim of the unseen name `"bob"` is accepted and the
name lands in the pool. -/
theorem claim_C1_witness :
    validate_output env0 { claim := .domain d_new, amount := 5 } st_fresh
        bst_empty =
      .ok ({ st_fresh with seen_domain_output := true },
           { name_pool := ["bob"] }) :=
  (claim_C1 env0 d_new 5 st_fresh bst_empty rfl rfl rfl rfl rfl rfl).1.mpr
    ⟨rfl, rfl⟩

/-- C7: `validate_domain_input` rejects a second claim input and an input whose
name has no ledger record; on success it stores the record snapshot and locked
amount and sets `seen_domain_input`. -/
theorem claim_C7 (env : dns_env) (input : claim_domain_output) (amount : Int)
    (st : dns_tx_evaluation_state) (bst : dns_block_evaluation_state) :
    (st.seen_domain_input = true →
      validate_domain_input env input amount st bst =
        .error "More than one domain claim input in tx")
    ∧ (st.seen_domain_input = false →
       env.has_dns_record input.name = false →
      validate_domain_input env input amount st bst =
        .error "Input references invalid name")
    ∧ (st.seen_domain_input = false →
       env.has_dns_record input.name = true →
      validate_domain_input env input amount st bst =
        .ok { st with input := input, input_amount := amount,
                      seen_domain_input := true }) := by
  refine ⟨fun h => ?_, fun h1 h2 => ?_, fun h1 h2 => ?_⟩ <;>
    simp [validate_domain_input, *]

/-- C7 witness: the input referencing the existing record `"alice"` is
accepted and recorded into the per-transaction state. -/
theorem claim_C7_witness :
    validate_domain_input env0 d_alice 100 st_fresh bst_empty =
      .ok { st_fresh with input := d_alice, input_amount := 100,
                          seen_domain_input := true } :=
  (claim_C7 env0 d_alice 100 st_fresh bst_empty).2.2 rfl rfl

/-- C9: validating a claim input is independent of the in-block name pool: any
two block states yield the identical outcome and state effects. -/
theorem claim_C9 (env : dns_env) (input : claim_domain_output) (amount : Int)
    (st : dns_tx_evaluation_state) (b1 b2 : dns_block_evaluation_state) :
    validate_domain_input env input amount st b1 =
      validate_domain_input env input amount st b2 := rfl

/-- C2: with a claim input seen, a structurally valid claim output is rejected
when the name is new-or-expired, or when the output's name differs from the
input's; and, when the referenced record's auction is still open, when the
name is unavailable or the input record's state is not `possibly_in_auction`. -/
theorem claim_C2 (env : dns_env) (d : claim_domain_output) (A : Int)
    (st : dns_tx_evaluation_state) (bst : dns_block_evaluation_state)
    (hin : st.seen_domain_input = true)
    (hout : st.seen_domain_output = false)
    (hname : env.is_valid_name d.name = true)
    (hvalue : env.is_valid_value d.value = true)
    (hstate : is_valid_state d.state = true)
    (hamount : env.is_valid_amount A = true) :
    ((env.name_is_available d.name bst.name_pool).2.1 = true →
      validate_domain_output env d A st bst = .error "Name new or expired")
    ∧ ((env.name_is_available d.name bst.name_pool).2.1 = false →
       (d.name == st.input.name) = false →
      validate_domain_output env d A st bst =
        .error "Bid tx refers to different input and output names")
    ∧ ((env.name_is_available d.name bst.name_pool).2.1 = false →
       (d.name == st.input.name) = true →
       env.auction_is_closed
         (env.name_is_available d.name bst.name_pool).2.2 = false →
       (env.name_is_available d.name bst.name_pool).1 = false →
      validate_domain_output env d A st bst = .error "Name not available")
    ∧ ((env.name_is_available d.name bst.name_pool).2.1 = false →
       (d.name == st.input.name) = true →
       env.auction_is_closed
         (env.name_is_available d.name bst.name_pool).2.2 = false →
       (env.name_is_available d.name bst.name_pool).1 = true →
       (st.input.state == possibly_in_auction) = false →
      validate_domain_output env d A st bst =
        .error "Input not for auction") := by
  refine ⟨fun h1 => ?_, fun h1 h2 => ?_, fun h1 h2 h3 h4 => ?_,
          fun h1 h2 h3 h4 h5 => ?_⟩ <;>
    simp [validate_domain_output, *]

/-- C2 witness: a claim output naming the fresh name `"bob"` on a transaction
with a claim input is rejected as new-or-expired. -/
theorem claim_C2_witness :
    validate_domain_output env0 d_new 5 st_bid bst_empty =
      .error "Name new or expired" :=
  (claim_C2 env0 d_new 5 st_bid bst_empty rfl rfl rfl rfl rfl rfl).1 rfl

/-- The refund scan succeeds exactly when the transaction holds a
`claim_by_signature` output of at least `back` to `owner`. -/
theorem pays_prev_owner_iff (outs : List trx_output) (back : Int)
    (owner : Nat) :
    pays_prev_owner outs back owner = true ↔
      ∃ o ∈ outs,
        o.claim = claim_func_kind.by_signature owner ∧ back ≤ o.amount := by
  unfold pays_prev_owner
  rw [List.any_eq_true]
  constructor
  · rintro ⟨o, ho, hp⟩
    refine ⟨o, ho, ?_⟩
    cases hc : o.claim with
    | by_signature k =>
      rw [hc] at hp
      simp only [Bool.and_eq_true, decide_eq_true_eq, beq_iff_eq] at hp
      obtain ⟨ha, hk⟩ := hp
      subst hk
      exact ⟨rfl, ha⟩
    | domain d => rw [hc] at hp; simp at hp
    | other_claim => rw [hc] at hp; simp at hp
  · rintro ⟨o, ho, hclaim, hamt⟩
    exact ⟨o, ho, by rw [hclaim]; simp [hamt]⟩

/-- C3: on the open-auction bid path with a valid bid price refunding `back`,
the bid is accepted exactly when the refund scan finds a
`claim_by_signature` output of at least `back` to the prior owner — on
acceptance the required-fee accumulator grows by exactly `A − back` — and the
scan's success is equivalent to such an output existing. -/
theorem claim_C3 (env : dns_env) (d : claim_domain_output) (A back : Int)
    (st : dns_tx_evaluation_state) (bst : dns_block_evaluation_state)
    (hin : st.seen_domain_input = true)
    (hout : st.seen_domain_output = false)
    (hname : env.is_valid_name d.name = true)
    (hvalue : env.is_valid_value d.value = true)
    (hstate : is_valid_state d.state = true)
    (hamount : env.is_valid_amount A = true)
    (hnoe : (env.name_is_available d.name bst.name_pool).2.1 = false)
    (hnameeq : (d.name == st.input.name) = true)
    (hopen : env.auction_is_closed
      (env.name_is_available d.name bst.name_pool).2.2 = false)
    (hav : (env.name_is_available d.name bst.name_pool).1 = true)
    (hinstate : (st.input.state == possibly_in_auction) = true)
    (hbid : env.is_valid_bid_price st.input_amount A = some back) :
    (pays_prev_owner st.trx_outputs back st.input.owner = true →
      validate_domain_output env d A st bst =
        .ok { st with seen_domain_output := true,
                      required_fees := st.required_fees + (A - back) })
    ∧ (pays_prev_owner st.trx_outputs back st.input.owner = false →
      validate_domain_output env d A st bst =
        .error "Bid did not pay enough to previous owner")
    ∧ (pays_prev_owner st.trx_outputs back st.input.owner = true ↔
       ∃ o ∈ st.trx_outputs,
         o.claim = claim_func_kind.by_signature st.input.owner ∧
           back ≤ o.amount) := by
  refine ⟨fun h => ?_, fun h => ?_, pays_prev_owner_iff _ _ _⟩ <;>
    simp [validate_domain_output, *]

/-- C3 witness: the bid of `150` on `"alice"` (locked amount `100`,
`back = 100`) with a refund output of `100` to owner `1` is accepted and the
fee accumulator grows by `50 = 150 − 100`. -/
theorem claim_C3_witness :
    validate_domain_output env0 d_bid 150 st_bid bst_empty =
      .ok { st_bid with seen_domain_output := true, required_fees := 50 } :=
  (claim_C3 env0 d_bid 150 100 st_bid bst_empty rfl rfl rfl rfl rfl rfl rfl
    rfl rfl rfl rfl rfl).1 rfl

/-- C4: on the closed-auction path, an expired record is rejected; a
`not_in_auction` output whose amount differs from the stored input amount is
rejected; a missing output-owner signature is rejected; and with none of
those, the output is accepted. -/
theorem claim_C4 (env : dns_env) (d : claim_domain_output) (A : Int)
    (st : dns_tx_evaluation_state) (bst : dns_block_evaluation_state)
    (hin : st.seen_domain_input = true)
    (hout : st.seen_domain_output = false)
    (hname : env.is_valid_name d.name = true)
    (hvalue : env.is_valid_value d.value = true)
    (hstate : is_valid_state d.state = true)
    (hamount : env.is_valid_amount A = true)
    (hnoe : (env.name_is_available d.name bst.name_pool).2.1 = false)
    (hnameeq : (d.name == st.input.name) = true)
    (hclosed : env.auction_is_closed
      (env.name_is_available d.name bst.name_pool).2.2 = true) :
    (env.domain_is_expired
        (env.name_is_available d.name bst.name_pool).2.2 = true →
      validate_domain_output env d A st bst = .error "Domain is expired")
    ∧ (env.domain_is_expired
        (env.name_is_available d.name bst.name_pool).2.2 = false →
       (d.state == not_in_auction) = true →
       (A == st.input_amount) = false →
      validate_domain_output env d A st bst =
        .error "Output amount should not change when updating record")
    ∧ (env.domain_is_expired
        (env.name_is_available d.name bst.name_pool).2.2 = false →
       (d.state == not_in_auction && !(A == st.input_amount)) = false →
       has_signature st d.owner = false →
      validate_domain_output env d A st bst =
        .error "Domain tx missing required signature")
    ∧ (env.domain_is_expired
        (env.name_is_available d.name bst.name_pool).2.2 = false →
       (d.state == not_in_auction && !(A == st.input_amount)) = false →
       has_signature st d.owner = true →
      validate_domain_output env d A st bst =
        .ok { st with seen_domain_output := true }) := by
  refine ⟨fun h1 => ?_, fun h1 h2 h3 => ?_, fun h1 h2 h3 => ?_,
          fun h1 h2 h3 => ?_⟩
  · simp [validate_domain_output, *]
  · simp [validate_domain_output, *]
  · simp [has_signature] at h3
    simp [validate_domain_output, has_signature, *]
  · simp [has_signature] at h3
    simp [validate_domain_output, has_signature, *]

/-- C4 witness: the record update on `"alice"` keeping the amount at `100`,
signed by the owner, is accepted. -/
theorem claim_C4_witness :
    validate_domain_output env_closed d_upd 100 st_bid bst_empty =
      .ok { st_bid with seen_domain_output := true } :=
  (claim_C4 env_closed d_upd 100 st_bid bst_empty rfl rfl rfl rfl rfl rfl rfl
    rfl rfl).2.2.2 rfl rfl rfl

/-- C10: on the closed-auction path, a `possibly_in_auction` output (a
re-auction/sale) is accepted for any amount passing the generic amount check,
provided the record is not expired and the output-owner's signature is
present — no equality with the stored input amount is required. -/
theorem claim_C10 (env : dns_env) (d : claim_domain_output) (A : Int)
    (st : dns_tx_evaluation_state) (bst : dns_block_evaluation_state)
    (hin : st.seen_domain_input = true)
    (hout : st.seen_domain_output = false)
    (hname : env.is_valid_name d.name = true)
    (hvalue : env.is_valid_value d.value = true)
    (hstate : d.state = possibly_in_auction)
    (hamount : env.is_valid_amount A = true)
    (hnoe : (env.name_is_available d.name bst.name_pool).2.1 = false)
    (hnameeq : (d.name == st.input.name) = true)
    (hclosed : env.auction_is_closed
      (env.name_is_available d.name bst.name_pool).2.2 = true)
    (hexp : env.domain_is_expired
      (env.name_is_available d.name bst.name_pool).2.2 = false)
    (hsig : has_signature st d.owner = true) :
    validate_domain_output env d A st bst =
      .ok { st with seen_domain_output := true } := by
  simp [has_signature] at hsig
  simp [validate_domain_output, is_valid_state, has_signature,
    possibly_in_auction, not_in_auction, *]

/-- C10 witness: the sale output on `"alice"` with amount `5 ≠ 100`, signed by
the new owner `2`, is accepted after the auction closed. -/
theorem claim_C10_witness :
    validate_domain_output env_closed d_bid 5 st_sale bst_empty =
      .ok { st_sale with seen_domain_output := true } :=
  claim_C10 env_closed d_bid 5 st_sale bst_empty rfl rfl rfl rfl rfl rfl rfl
    rfl rfl rfl rfl

/-- A successful claim-output validation passed every structural check: no
prior claim output and valid name, value, state, and amount. -/
theorem validate_domain_output_ok_structural (env : dns_env)
    (d : claim_domain_output) (A : Int) (st : dns_tx_evaluation_state)
    (bst : dns_block_evaluation_state) (st' : dns_tx_evaluation_state)
    (h : validate_domain_output env d A st bst = .ok st') :
    st.seen_domain_output = false ∧ env.is_valid_name d.name = true ∧
    env.is_valid_value d.value = true ∧ is_valid_state d.state = true ∧
    env.is_valid_amount A = true := by
  cases hso : st.seen_domain_output with
  | true => simp [validate_domain_output, hso] at h
  | false =>
    cases hn : env.is_valid_name d.name with
    | false => simp [validate_domain_output, hso, hn] at h
    | true =>
      cases hv : env.is_valid_value d.value with
      | false => simp [validate_domain_output, hso, hn, hv] at h
      | true =>
        cases hs : is_valid_state d.state with
        | false => simp [validate_domain_output, hso, hn, hv, hs] at h
        | true =>
          cases ha : env.is_valid_amount A with
          | false => simp [validate_domain_output, hso, hn, hv, hs, ha] at h
          | true => exact ⟨rfl, rfl, rfl, rfl, rfl⟩

/-- C8: a second claim output is rejected, as is any claim output failing the
name, value, state, or amount rule; under the spec's minimum-amount rule a
non-positive amount is always rejected and a new-claim amount below the
auction floor is rejected. -/
theorem claim_C8 (env : dns_env) (d : claim_domain_output) (A : Int)
    (st : dns_tx_evaluation_state) (bst : dns_block_evaluation_state) :
    (st.seen_domain_output = true →
      isRejected (validate_domain_output env d A st bst) = true)
    ∧ (env.is_valid_name d.name = false →
      isRejected (validate_domain_output env d A st bst) = true)
    ∧ (env.is_valid_value d.value = false →
      isRejected (validate_domain_output env d A st bst) = true)
    ∧ (is_valid_state d.state = false →
      isRejected (validate_domain_output env d A st bst) = true)
    ∧ (env.is_valid_amount A = false →
      isRejected (validate_domain_output env d A st bst) = true)
    ∧ (∀ floor_amt : Int,
       env.is_valid_amount = min_amount_rule floor_amt (!st.seen_domain_input) →
       A ≤ 0 → isRejected (validate_domain_output env d A st bst) = true)
    ∧ (∀ floor_amt : Int,
       env.is_valid_amount = min_amount_rule floor_amt (!st.seen_domain_input) →
       st.seen_domain_input = false → A < floor_amt →
       isRejected (validate_domain_output env d A st bst) = true) := by
  have reject :
      ∀ (p : Prop), (∀ s, validate_domain_output env d A st bst = .ok s → p) →
        ¬ p → isRejected (validate_domain_output env d A st bst) = true := by
    intro p hp hnp
    cases hr : validate_domain_output env d A st bst with
    | error e => rfl
    | ok s => exact absurd (hp s hr) hnp
  refine ⟨fun h => ?_, fun h => ?_, fun h => ?_, fun h => ?_, fun h => ?_,
          fun f hf hA => ?_, fun f hf hsi hA => ?_⟩
  · exact reject (st.seen_domain_output = false)
      (fun s hs => (validate_domain_output_ok_structural env d A st bst s hs).1)
      (by simp [h])
  · exact reject (env.is_valid_name d.name = true)
      (fun s hs => (validate_domain_output_ok_structural env d A st bst s hs).2.1)
      (by simp [h])
  · exact reject (env.is_valid_value d.value = true)
      (fun s hs =>
        (validate_domain_output_ok_structural env d A st bst s hs).2.2.1)
      (by simp [h])
  · exact reject (is_valid_state d.state = true)
      (fun s hs =>
        (validate_domain_output_ok_structural env d A st bst s hs).2.2.2.1)
      (by simp [h])
  · exact reject (env.is_valid_amount A = true)
      (fun s hs =>
        (validate_domain_output_ok_structural env d A st bst s hs).2.2.2.2)
      (by simp [h])
  · refine reject (env.is_valid_amount A = true)
      (fun s hs =>
        (validate_domain_output_ok_structural env d A st bst s hs).2.2.2.2) ?_
    rw [hf]
    simp only [min_amount_rule, Bool.and_eq_true, decide_eq_true_eq]
    intro hc
    omega
  · refine reject (env.is_valid_amount A = true)
      (fun s hs =>
        (validate_domain_output_ok_structural env d A st bst s hs).2.2.2.2) ?_
    rw [hf, hsi]
    simp only [min_amount_rule, Bool.not_false, Bool.true_or, Bool.or_eq_true,
      Bool.and_eq_true, decide_eq_true_eq, Bool.not_true, Bool.false_or]
    intro hc
    omega

/-- C8 witness: a claim output with amount `0` is rejected. -/
theorem claim_C8_witness :
    isRejected (validate_domain_output env0 d_new 0 st_fresh bst_empty) =
      true :=
  (claim_C8 env0 d_new 0 st_fresh bst_empty).2.2.2.2.1 rfl

/-- C5: a transaction rejected at any validation rule leaves the per-block
state exactly as it was for every transaction validated after it. -/
theorem claim_C5 (env : dns_env) (tx : signed_transaction)
    (rest : List signed_transaction) (bst : dns_block_evaluation_state)
    (e : String) (h : evaluate_trx env tx bst = .error e) :
    apply_block env (tx :: rest) bst = apply_block env rest bst := by
  simp [apply_block, h]

/-- C5 witness: the transaction referencing an unknown name is rejected and
contributes nothing to the block state. -/
theorem claim_C5_witness :
    evaluate_trx env0 tx_bad bst_empty = .error "Input references invalid name"
    ∧ apply_block env0 [tx_bad] bst_empty = apply_block env0 [] bst_empty :=
  ⟨rfl, claim_C5 env0 tx_bad [] bst_empty "Input references invalid name" rfl⟩

/-- C6 counterexample: the successful bid on `"alice"` (claim input present)
does append the name to the block's name pool — the pool holds strictly more
occurrences of `"alice"` afterwards, contradicting the claim. -/
theorem claim_C6_counterexample :
    st_bid.seen_domain_input = true
    ∧ validate_output env0 { claim := .domain d_bid, amount := 150 } st_bid
        bst_empty = .ok (st_bid_after, bst_alice)
    ∧ ¬ bst_alice.name_pool.count "alice" ≤ bst_empty.name_pool.count "alice"
    := ⟨rfl, rfl, by decide⟩

/-- C6 amended: a successful claim output on a transaction with a claim input
seen (a bid) appends the output's name to the block's name pool, so the pool
holds exactly one more occurrence of that name than before the transaction. -/
theorem claim_C6_amended (env : dns_env) (d : claim_domain_output) (A : Int)
    (st st' : dns_tx_evaluation_state)
    (bst bst' : dns_block_evaluation_state)
    (_hin : st.seen_domain_input = true)
    (h : validate_output env { claim := .domain d, amount := A } st bst =
      .ok (st', bst')) :
    bst'.name_pool.count d.name = bst.name_pool.count d.name + 1 := by
  dsimp only [validate_output] at h
  cases hr : validate_domain_output env d A st bst with
  | error e => rw [hr] at h; simp at h
  | ok s =>
    rw [hr] at h
    simp only [Except.ok.injEq, Prod.mk.injEq] at h
    rw [← h.2]
    simp [List.count_append]

/-- C6 witness (for the amended claim): after the sample bid, the pool holds
one more copy of `"alice"` than before. -/
theorem claim_C6_witness :
    bst_alice.name_pool.count "alice" = bst_empty.name_pool.count "alice" + 1
    := claim_C6_amended env0 d_bid 150 st_bid st_bid_after bst_empty bst_alice
      rfl rfl
